import Mathlib

/-!
Verification of the FastWrite-API `/generate` endpoint (`src/main.py`).

The handler is shallowly embedded as a pure function over an `Env` of
external collaborators (network, zip extraction, the four LLM provider
calls, data-flow generation), returning the HTTP outcome together with a
trace of the outbound calls it performed.
-/

namespace FastWriteAPI

/-- Raw bytes, each value intended `< 256`. -/
abbrev Bytes := List Nat

/-- The Python exception classes distinguished by the handler's
`except` chain: `ValueError`, `RuntimeError`, `fastapi.HTTPException`
(raised with an explicit status and detail inside the `try` block), and
any other `Exception`. -/
inductive PyError where
  | valueError (msg : String)
  | runtimeError (msg : String)
  | httpException (status : Nat) (detail : String)
  | otherError (msg : String)
deriving DecidableEq, Repr

/-- Observable outbound calls: `requests.get url` and the four
`generate_documentation_*` provider calls. -/
inductive Event where
  | netGet (url : String)
  | providerCall (provider code prompt : String) (apiKey : Option String) (model : String)
deriving DecidableEq, Repr

/-- Whether an event is one of the four provider documentation calls. -/
def Event.isProviderCall : Event → Bool
  | .providerCall _ _ _ _ _ => true
  | _ => false

/-- The pydantic request body: `github_url`, `zip_file` and `api_key`
default to `None` (so they are optional strings); `llm_provider`,
`llm_model` and `prompt` are parsed as strings. -/
structure RequestBody where
  github_url : Option String
  zip_file : Option String
  llm_provider : String
  llm_model : String
  api_key : Option String
  prompt : String
deriving DecidableEq, Repr

/-- The JSON object returned on success (HTTP 200). -/
structure SuccessBody where
  documentation : String
  flowchart : String
  llm_provider : String
  llm_model : String
deriving DecidableEq, Repr

/-- The HTTP outcome of the endpoint: a 200 payload, or an error status
with a `detail` string. -/
inductive Outcome where
  | success (body : SuccessBody)
  | failure (status : Nat) (detail : String)
deriving DecidableEq, Repr

/-- The HTTP status code of an outcome. -/
def Outcome.statusCode : Outcome → Nat
  | .success _ => 200
  | .failure st _ => st

/-- External collaborators, as oracles.  `net u` is the body returned by
`requests.get u` (or the exception message on a `RequestException`);
`unzip b` is the extracted workspace produced from the archive bytes `b`,
as (path, text) pairs with distinct paths (or the exception message when
extraction fails); the four provider fields take (code, prompt, api_key,
model) and return the generated text or an exception message; `dataFlow`
is `FastWrite.generate_data_flow`. -/
structure Env where
  net : String → Except String Bytes
  unzip : Bytes → Except String (List (String × String))
  groq : String → String → Option String → String → Except String String
  gemini : String → String → Option String → String → Except String String
  openai : String → String → Option String → String → Except String String
  openrouter : String → String → Option String → String → Except String String
  dataFlow : String → Except String String

/-- Python truthiness of an optional string field (`None` and `""` are
falsy). -/
def truthy : Option String → Bool
  | none => false
  | some s => s != ""

/-- Lowercasing of one character, as Python `str.lower` acts on the
ASCII range (provider names are ASCII). -/
def lowerChar : Char → Char
  | 'A' => 'a' | 'B' => 'b' | 'C' => 'c' | 'D' => 'd' | 'E' => 'e' | 'F' => 'f'
  | 'G' => 'g' | 'H' => 'h' | 'I' => 'i' | 'J' => 'j' | 'K' => 'k' | 'L' => 'l'
  | 'M' => 'm' | 'N' => 'n' | 'O' => 'o' | 'P' => 'p' | 'Q' => 'q' | 'R' => 'r'
  | 'S' => 's' | 'T' => 't' | 'U' => 'u' | 'V' => 'v' | 'W' => 'w' | 'X' => 'x'
  | 'Y' => 'y' | 'Z' => 'z'
  | c => c

/-- Python `str.lower` on the ASCII range. -/
def lowerStr (s : String) : String := ⟨s.data.map lowerChar⟩

/-- Python `str.startswith`. -/
def strStartsWith (s pat : String) : Bool := pat.data.isPrefixOf s.data

/-- Python `str.endswith`. -/
def strEndsWith (s pat : String) : Bool := pat.data.reverse.isPrefixOf s.data.reverse

/-- Worker for `strReplace`: left-to-right non-overlapping replacement
of a nonempty pattern, fuelled by the input length (each step consumes
at least one character and one unit of fuel). -/
def replChars (pat rep : List Char) : Nat → List Char → List Char
  | _, [] => []
  | 0, l => l
  | fuel + 1, c :: rest =>
    if pat ≠ [] ∧ pat.isPrefixOf (c :: rest) then
      rep ++ replChars pat rep fuel (List.drop pat.length (c :: rest))
    else
      c :: replChars pat rep fuel rest

/-- Python `str.replace` (all non-overlapping occurrences, left to
right). -/
def strReplace (s pat rep : String) : String :=
  ⟨replChars pat.data rep.data s.data.length s.data⟩

/-- Value of one character of the standard base64 alphabet. -/
def b64val (c : Char) : Option Nat :=
  if 'A' ≤ c ∧ c ≤ 'Z' then some (c.toNat - 65)
  else if 'a' ≤ c ∧ c ≤ 'z' then some (c.toNat - 71)
  else if '0' ≤ c ∧ c ≤ '9' then some (c.toNat + 4)
  else if c = '+' then some 62
  else if c = '/' then some 63
  else none

/-- Decode one final base64 group of 2, 3 or 4 six-bit values into
1, 2 or 3 bytes. -/
def b64group : List Nat → Bytes
  | [a, b] => [a * 4 + b / 16]
  | [a, b, c] => [a * 4 + b / 16, b % 16 * 16 + c / 4]
  | [a, b, c, d] => [a * 4 + b / 16, b % 16 * 16 + c / 4, c % 4 * 64 + d]
  | _ => []

/-- Worker for `b64decode`: walks the characters keeping the current
(incomplete) group of six-bit values.  Non-ASCII characters fail (Python
first encodes the `str` as ASCII); other non-alphabet characters are
discarded; `=` at group position ≥ 2 ends the data (the rest is
ignored), a stray `=` earlier is discarded; a final incomplete group
without padding is an `Incorrect padding` error. -/
def b64run : List Char → List Nat → Option Bytes
  | [], grp => if grp.length = 0 then some [] else none
  | c :: rest, grp =>
    if c.toNat ≥ 128 then none
    else if c = '=' then
      if grp.length ≥ 2 then some (b64group grp) else b64run rest grp
    else
      match b64val c with
      | none => b64run rest grp
      | some v =>
        if (grp ++ [v]).length = 4 then
          (b64run rest []).map (fun t => b64group (grp ++ [v]) ++ t)
        else b64run rest (grp ++ [v])

/-- Python `base64.b64decode` applied to a `str` (`None` is a
`binascii.Error` / `ValueError`, mapped by the handler to an
`HTTPException`; `some b` is the decoded bytes). -/
def b64decode (s : String) : Option Bytes :=
  b64run s.data []

/-- `fetch_github_zip` (src/main.py lines 49-69): validates the URL
shape, fetches a direct `.zip` URL, or rewrites the host to
`codeload.github.com` and tries the `main` then the `master` branch
archive.  Returns the result together with the list of attempted
`requests.get` calls. -/
def fetch_github_zip (net : String → Except String Bytes) (github_url : String) :
    Except PyError Bytes × List Event :=
  if ¬ strStartsWith github_url "https://github.com/" then
    (.error (.valueError "Invalid GitHub URL"), [])
  else if strEndsWith github_url ".zip" then
    (match net github_url with
     | .ok content => .ok content
     | .error e => .error (.runtimeError ("Failed to fetch GitHub ZIP: " ++ e)),
     [.netGet github_url])
  else
    let base_url := strReplace github_url "github.com" "codeload.github.com"
    let mainUrl := base_url ++ "/zip/refs/heads/main"
    let masterUrl := base_url ++ "/zip/refs/heads/master"
    match net mainUrl with
    | .ok content => (.ok content, [.netGet mainUrl])
    | .error _ =>
      match net masterUrl with
      | .ok content => (.ok content, [.netGet mainUrl, .netGet masterUrl])
      | .error e =>
        (.error (.runtimeError
           ("Failed to fetch GitHub ZIP for branches 'main' or 'master': " ++ e)),
         [.netGet mainUrl, .netGet masterUrl])

/-- Modelled from the spec (§4.2 Archive Handler): `FastWrite.read_file`
is not part of this repository's source; it returns the text content of
the named file of the extracted workspace. -/
def read_file (entries : List (String × String)) (path : String) : String :=
  ((entries.find? (fun e => e.1 == path)).map Prod.snd).getD ""

/-- `process_zip` (src/main.py lines 71-80).  `FastWrite.extract_zip`
and `FastWrite.list_python_files` are not part of this repository's
source; modelled from the spec (§4.2): extraction is the `unzip` oracle,
and `list_python_files` keeps the extracted paths with the recognized
`.py` source extension, in listing order.  No matching file is the
`ValueError` of line 78; an extraction failure propagates as a generic
exception. -/
def process_zip (unzip : Bytes → Except String (List (String × String)))
    (zip_data : Bytes) : Except PyError String :=
  match unzip zip_data with
  | .error msg => .error (.otherError msg)
  | .ok entries =>
    match (entries.map Prod.fst).filter (fun n => strEndsWith n ".py") with
    | [] => .error (.valueError "No Python files found in the ZIP")
    | f :: _ => .ok (read_file entries f)

/-- The `required_fields` dict of src/main.py line 89 (insertion
order preserved); `llm_provider` is the already-lowercased local. -/
def required_fields (r : RequestBody) (llm_provider : String) : List (String × String) :=
  [("llm_provider", llm_provider), ("llm_model", r.llm_model), ("prompt", r.prompt)]

/-- The `missing` list of src/main.py line 90. -/
def missing_fields (r : RequestBody) (llm_provider : String) : List String :=
  ((required_fields r llm_provider).filter (fun kv => kv.2 == "")).map Prod.fst

/-- The closed set of recognized providers (src/main.py line 97). -/
def providers : List String := ["groq", "gemini", "openai", "openrouter"]

/-- The three validation checks of src/main.py lines 89-98, in order:
the `(status, detail)` of the `HTTPException` raised by the first failing
check, or `none` when all pass. -/
def validationError (r : RequestBody) (llm_provider : String) : Option (Nat × String) :=
  if missing_fields r llm_provider ≠ [] then
    some (400, "Missing required fields: " ++
      String.intercalate ", " (missing_fields r llm_provider))
  else if ¬ (truthy r.github_url || truthy r.zip_file) then
    some (400, "Must provide either github_url or zip_file")
  else if llm_provider ∈ providers ∧ ¬ truthy r.api_key then
    some (400, "API key is required for " ++ llm_provider)
  else
    none

/-- A provider-call exception is none of `ValueError` / `RuntimeError` /
`HTTPException`, so it reaches the trailing generic handler. -/
def liftProv : Except String String → Except PyError String
  | .ok s => .ok s
  | .error e => .error (.otherError e)

/-- The provider dispatch of src/main.py lines 116-125, with the call
performed (if any) recorded as an event. -/
def dispatch (env : Env) (llm_provider code_content custom_prompt : String)
    (api_key : Option String) (llm_model : String) :
    Except PyError String × List Event :=
  if llm_provider = "groq" then
    (liftProv (env.groq code_content custom_prompt api_key llm_model),
     [.providerCall "groq" code_content custom_prompt api_key llm_model])
  else if llm_provider = "gemini" then
    (liftProv (env.gemini code_content custom_prompt api_key llm_model),
     [.providerCall "gemini" code_content custom_prompt api_key llm_model])
  else if llm_provider = "openai" then
    (liftProv (env.openai code_content custom_prompt api_key llm_model),
     [.providerCall "openai" code_content custom_prompt api_key llm_model])
  else if llm_provider = "openrouter" then
    (liftProv (env.openrouter code_content custom_prompt api_key llm_model),
     [.providerCall "openrouter" code_content custom_prompt api_key llm_model])
  else
    (.error (.httpException 400 ("Unsupported LLM provider: " ++ llm_provider)), [])

/-- Acquisition of the archive bytes (src/main.py lines 101-107): from
`fetch_github_zip` when `github_url` is truthy, otherwise by base64
decoding of `zip_file`; a decode failure is the `HTTPException` of
line 107, raised inside the outer `try`. -/
def getZipData (net : String → Except String Bytes) (r : RequestBody) :
    Except PyError Bytes × List Event :=
  if truthy r.github_url then
    fetch_github_zip net (r.github_url.getD "")
  else
    match b64decode (r.zip_file.getD "") with
    | some b => (.ok b, [])
    | none => (.error (.httpException 400 "Invalid base64-encoded ZIP file"), [])

/-- The body of the handler's `try` block (src/main.py lines 84-132)
after the local `llm_provider = request.llm_provider.lower()` binding,
parameterized by that local. -/
def try_body_with (env : Env) (r : RequestBody) (llm_provider : String) :
    Except PyError SuccessBody × List Event :=
  match validationError r llm_provider with
  | some sd => (.error (.httpException sd.1 sd.2), [])
  | none =>
    match getZipData env.net r with
    | (.error e, tr) => (.error e, tr)
    | (.ok zip_data, tr) =>
      match process_zip env.unzip zip_data with
      | .error e => (.error e, tr)
      | .ok code_content =>
        let flowchart :=
          match env.dataFlow code_content with
          | .ok s => s
          | .error e => "Failed to generate data flow diagram: " ++ e
        match dispatch env llm_provider code_content r.prompt r.api_key r.llm_model with
        | (.error e, tr2) => (.error e, tr ++ tr2)
        | (.ok documentation, tr2) =>
          (.ok ⟨documentation, flowchart, llm_provider, r.llm_model⟩, tr ++ tr2)

/-- The handler's `try` block, with the line 85 lowercasing applied. -/
def try_body (env : Env) (r : RequestBody) : Except PyError SuccessBody × List Event :=
  try_body_with env r (lowerStr r.llm_provider)

/-- `str(e)` of a `fastapi.HTTPException`. -/
def str_of_http (st : Nat) (d : String) : String := toString st ++ ": " ++ d

/-- The `except` chain of src/main.py lines 134-139: `except ValueError`
re-raises as 400, `except RuntimeError` as 500; an `HTTPException` raised
inside the `try` block is neither, so it falls to the trailing
`except Exception`, which re-raises as 500 with the generic prefix — as
does any other exception. -/
def except_chain : Except PyError SuccessBody → Outcome
  | .ok b => .success b
  | .error (.valueError m) => .failure 400 m
  | .error (.runtimeError m) => .failure 500 m
  | .error (.httpException st d) =>
    .failure 500 ("Internal server error: " ++ str_of_http st d)
  | .error (.otherError m) => .failure 500 ("Internal server error: " ++ m)

/-- The `/generate` handler (src/main.py lines 82-139): the `try` block
followed by the `except` chain, keeping the trace of outbound calls. -/
def generate_documentation (env : Env) (r : RequestBody) : Outcome × List Event :=
  (except_chain (try_body env r).1, (try_body env r).2)

/-- A default environment for concrete runs: every provider call
succeeds, every archive extracts to one Python file, the network is
down. -/
def env0 : Env where
  net := fun _ => .error "connection error"
  unzip := fun _ => .ok [("a.py", "hello")]
  groq := fun _ _ _ _ => .ok "groq-doc"
  gemini := fun _ _ _ _ => .ok "gemini-doc"
  openai := fun _ _ _ _ => .ok "openai-doc"
  openrouter := fun _ _ _ _ => .ok "openrouter-doc"
  dataFlow := fun _ => .ok "flow"

/-! Helper lemmas. -/

theorem gen_trace (env : Env) (r : RequestBody) :
    (generate_documentation env r).2 = (try_body env r).2 := rfl

theorem fetch_github_zip_trace (net : String → Except String Bytes) (u : String) :
    ∀ ev ∈ (fetch_github_zip net u).2, ev.isProviderCall = false := by
  unfold fetch_github_zip
  split
  · simp
  · split
    · simp [Event.isProviderCall]
    · dsimp only
      split
      · simp [Event.isProviderCall]
      · split <;> simp [Event.isProviderCall]

theorem getZipData_trace (net : String → Except String Bytes) (r : RequestBody) :
    ∀ ev ∈ (getZipData net r).2, ev.isProviderCall = false := by
  unfold getZipData
  split
  · exact fetch_github_zip_trace net _
  · split <;> simp

/-- C1: for a POST /generate request with a missing (empty) mandatory
field, the spec claims a 400 response listing the missing fields; the
code raises that `HTTPException(400)` inside its own `try` block, and the
trailing `except Exception` converts it to a 500 whose detail wraps the
intended message, so the claimed 400 never reaches the client. -/
theorem C1_missing_field_yields_500 :
    generate_documentation env0 ⟨none, some "AQID", "groq", "", some "k", "p"⟩ =
      (.failure 500 "Internal server error: 400: Missing required fields: llm_model",
       []) := by decide

/-- C2: every `HTTPException` raised inside the handler's `try` block
(missing fields, no input source, missing API key, malformed base64,
unsupported provider are exactly the errors of that class) is caught by
the trailing generic `except Exception` clause, so the client receives
status 500 with a detail prefixed by the generic message, not the 400
raised at the check site. -/
theorem C2_inner_httpexception_becomes_500 (env : Env) (r : RequestBody)
    (st : Nat) (d : String)
    (h : (try_body env r).1 = .error (.httpException st d)) :
    (generate_documentation env r).1 =
      .failure 500 ("Internal server error: " ++ str_of_http st d) := by
  simp only [generate_documentation, h, except_chain]

theorem C2_inner_httpexception_becomes_500_witness :
    (generate_documentation env0 ⟨none, some "AQID", "gemini", "", some "k", "p"⟩).1 =
      .failure 500 ("Internal server error: " ++
        str_of_http 400 "Missing required fields: llm_model") :=
  C2_inner_httpexception_becomes_500 env0 _ 400 "Missing required fields: llm_model"
    rfl

/-- C3: for a request whose provider (after lowercasing) is none of
groq/gemini/openai/openrouter and which passes the earlier checks, the
spec claims a 400 response; the code raises `HTTPException(400)` at the
dispatch site inside the `try` block and the trailing `except Exception`
converts it to a 500.  The empty trace shows that none of the four
provider documentation calls was invoked. -/
theorem C3_unsupported_provider_yields_500 :
    generate_documentation env0 ⟨none, some "AQID", "foo", "m", some "k", "p"⟩ =
      (.failure 500 "Internal server error: 400: Unsupported LLM provider: foo",
       []) := by decide

/-- C4: a failure of `generate_data_flow` is caught locally: when the
request reaches flow summarization (validation passed, bytes acquired,
one code file read) and documentation generation succeeds, the response
is still a 200 whose `flowchart` field is the descriptive failure string
and whose `documentation` field is the provider's normal output. -/
theorem C4_flow_failure_is_soft (env : Env) (r : RequestBody) (zd : Bytes)
    (tr tr2 : List Event) (code doc e : String)
    (hv : validationError r (lowerStr r.llm_provider) = none)
    (hz : getZipData env.net r = (.ok zd, tr))
    (hp : process_zip env.unzip zd = .ok code)
    (hf : env.dataFlow code = .error e)
    (hd : dispatch env (lowerStr r.llm_provider) code r.prompt r.api_key r.llm_model =
            (.ok doc, tr2)) :
    generate_documentation env r =
      (.success ⟨doc, "Failed to generate data flow diagram: " ++ e,
                 lowerStr r.llm_provider, r.llm_model⟩, tr ++ tr2) ∧
    (generate_documentation env r).1.statusCode = 200 := by
  have hb : try_body env r =
      (.ok ⟨doc, "Failed to generate data flow diagram: " ++ e,
            lowerStr r.llm_provider, r.llm_model⟩, tr ++ tr2) := by
    simp only [try_body, try_body_with, hv, hz, hp, hf, hd]
  constructor
  · simp only [generate_documentation, hb, except_chain]
  · simp only [generate_documentation, hb, except_chain, Outcome.statusCode]

/-- A soft-failure environment for the C4 witness. -/
def envFlowFail : Env := { env0 with dataFlow := fun _ => .error "boom" }

theorem C4_flow_failure_is_soft_witness :
    generate_documentation envFlowFail ⟨none, some "AQID", "Groq", "m", some "k", "p"⟩ =
      (.success ⟨"groq-doc", "Failed to generate data flow diagram: boom",
                 lowerStr "Groq", "m"⟩,
       [] ++ [.providerCall "groq" "hello" "p" (some "k") "m"]) ∧
    (generate_documentation envFlowFail
        ⟨none, some "AQID", "Groq", "m", some "k", "p"⟩).1.statusCode = 200 :=
  C4_flow_failure_is_soft envFlowFail ⟨none, some "AQID", "Groq", "m", some "k", "p"⟩
    [1, 2, 3] [] [.providerCall "groq" "hello" "p" (some "k") "m"]
    "hello" "groq-doc" "boom" rfl rfl rfl rfl rfl

/-- C5: for a `github_url` that does not start with the fixed prefix
`https://github.com/`, `fetch_github_zip` raises
`ValueError("Invalid GitHub URL")` with no network call made (empty
trace), and the endpoint's `except ValueError` clause maps it to a 400
response — also with an empty trace, so no outbound call at all. -/
theorem C5_invalid_github_url_400_no_network (env : Env) (r : RequestBody) (u : String)
    (hu : r.github_url = some u) (hne : u ≠ "")
    (hpre : strStartsWith u "https://github.com/" = false)
    (hv : validationError r (lowerStr r.llm_provider) = none) :
    fetch_github_zip env.net u = (.error (.valueError "Invalid GitHub URL"), []) ∧
    generate_documentation env r = (.failure 400 "Invalid GitHub URL", []) := by
  have hf : fetch_github_zip env.net u =
      (.error (.valueError "Invalid GitHub URL"), []) := by
    simp [fetch_github_zip, hpre]
  have ht : truthy r.github_url = true := by
    rw [hu]; simp [truthy, hne]
  have hz : getZipData env.net r = (.error (.valueError "Invalid GitHub URL"), []) := by
    simp only [getZipData, ht, if_true, hu, Option.getD_some, hf]
    simp [truthy, hne]
  refine ⟨hf, ?_⟩
  have hb : try_body env r = (.error (.valueError "Invalid GitHub URL"), []) := by
    simp only [try_body, try_body_with, hv, hz]
  simp only [generate_documentation, hb, except_chain]

theorem C5_invalid_github_url_400_no_network_witness :
    fetch_github_zip env0.net "http://example.com/x.zip" =
      (.error (.valueError "Invalid GitHub URL"), []) ∧
    generate_documentation env0
        ⟨some "http://example.com/x.zip", none, "groq", "m", some "k", "p"⟩ =
      (.failure 400 "Invalid GitHub URL", []) :=
  C5_invalid_github_url_400_no_network env0
    ⟨some "http://example.com/x.zip", none, "groq", "m", some "k", "p"⟩
    "http://example.com/x.zip" rfl (by decide) (by decide) rfl

/-- C6: for a well-formed non-`.zip` GitHub URL, the fetcher rewrites the
host to `codeload.github.com` and requests the `main` branch archive
first, then `master` (the trace lists both URLs in that order); when both
fail it raises a single combined `RuntimeError` naming both branches,
which the endpoint's `except RuntimeError` clause surfaces as a 500. -/
theorem C6_main_then_master_combined_500 (env : Env) (r : RequestBody)
    (u e1 e2 : String)
    (hu : r.github_url = some u) (hne : u ≠ "")
    (hpre : strStartsWith u "https://github.com/" = true)
    (hzip : strEndsWith u ".zip" = false)
    (hmain : env.net (strReplace u "github.com" "codeload.github.com" ++
               "/zip/refs/heads/main") = .error e1)
    (hmaster : env.net (strReplace u "github.com" "codeload.github.com" ++
                 "/zip/refs/heads/master") = .error e2)
    (hv : validationError r (lowerStr r.llm_provider) = none) :
    generate_documentation env r =
      (.failure 500 ("Failed to fetch GitHub ZIP for branches 'main' or 'master': " ++ e2),
       [.netGet (strReplace u "github.com" "codeload.github.com" ++ "/zip/refs/heads/main"),
        .netGet (strReplace u "github.com" "codeload.github.com" ++
          "/zip/refs/heads/master")]) := by
  have hf : fetch_github_zip env.net u =
      (.error (.runtimeError
         ("Failed to fetch GitHub ZIP for branches 'main' or 'master': " ++ e2)),
       [.netGet (strReplace u "github.com" "codeload.github.com" ++ "/zip/refs/heads/main"),
        .netGet (strReplace u "github.com" "codeload.github.com" ++
          "/zip/refs/heads/master")]) := by
    simp only [fetch_github_zip, hpre, hzip, hmain, hmaster]
    simp
  have ht : truthy r.github_url = true := by
    rw [hu]; simp [truthy, hne]
  have hz : getZipData env.net r =
      (.error (.runtimeError
         ("Failed to fetch GitHub ZIP for branches 'main' or 'master': " ++ e2)),
       [.netGet (strReplace u "github.com" "codeload.github.com" ++ "/zip/refs/heads/main"),
        .netGet (strReplace u "github.com" "codeload.github.com" ++
          "/zip/refs/heads/master")]) := by
    simp only [getZipData, ht, if_true, hu, Option.getD_some, hf]
    simp [truthy, hne]
  have hb : try_body env r =
      (.error (.runtimeError
         ("Failed to fetch GitHub ZIP for branches 'main' or 'master': " ++ e2)),
       [.netGet (strReplace u "github.com" "codeload.github.com" ++ "/zip/refs/heads/main"),
        .netGet (strReplace u "github.com" "codeload.github.com" ++
          "/zip/refs/heads/master")]) := by
    simp only [try_body, try_body_with, hv, hz]
  simp only [generate_documentation, hb, except_chain]

theorem C6_main_then_master_combined_500_witness :
    generate_documentation env0 ⟨some "https://github.com/u/r", none, "groq", "m", some "k", "p"⟩ =
      (.failure 500
         ("Failed to fetch GitHub ZIP for branches 'main' or 'master': " ++ "connection error"),
       [.netGet (strReplace "https://github.com/u/r" "github.com" "codeload.github.com" ++
          "/zip/refs/heads/main"),
        .netGet (strReplace "https://github.com/u/r" "github.com" "codeload.github.com" ++
          "/zip/refs/heads/master")]) :=
  C6_main_then_master_combined_500 env0
    ⟨some "https://github.com/u/r", none, "groq", "m", some "k", "p"⟩
    "https://github.com/u/r" "connection error" "connection error"
    rfl (by decide) (by decide) (by decide) rfl rfl rfl

/-- C7: for an archive that decodes and extracts successfully but
contains no file with the recognized source extension, the endpoint
returns 400 with the "No Python files found in the ZIP" message (the
`ValueError` of `process_zip` is mapped by `except ValueError`), and the
call trace contains no provider documentation call. -/
theorem C7_no_python_files_400_no_provider_call (env : Env) (r : RequestBody)
    (zd : Bytes) (tr : List Event) (entries : List (String × String))
    (hv : validationError r (lowerStr r.llm_provider) = none)
    (hz : getZipData env.net r = (.ok zd, tr))
    (hu : env.unzip zd = .ok entries)
    (hnone : (entries.map Prod.fst).filter (fun n => strEndsWith n ".py") = []) :
    generate_documentation env r = (.failure 400 "No Python files found in the ZIP", tr) ∧
    ∀ ev ∈ (generate_documentation env r).2, ev.isProviderCall = false := by
  have hp : process_zip env.unzip zd =
      .error (.valueError "No Python files found in the ZIP") := by
    simp only [process_zip, hu, hnone]
  have hb : try_body env r =
      (.error (.valueError "No Python files found in the ZIP"), tr) := by
    simp only [try_body, try_body_with, hv, hz, hp]
  have hmain : generate_documentation env r =
      (.failure 400 "No Python files found in the ZIP", tr) := by
    simp only [generate_documentation, hb, except_chain]
  refine ⟨hmain, ?_⟩
  rw [hmain]
  have h2 := getZipData_trace env.net r
  rw [hz] at h2
  exact h2

/-- An environment whose archives contain no Python file, for the C7
witness. -/
def envNoPy : Env := { env0 with unzip := fun _ => .ok [("a.txt", "x")] }

theorem C7_no_python_files_400_no_provider_call_witness :
    generate_documentation envNoPy ⟨none, some "AQID", "groq", "m", some "k", "p"⟩ =
      (.failure 400 "No Python files found in the ZIP", []) ∧
    ∀ ev ∈ (generate_documentation envNoPy
        ⟨none, some "AQID", "groq", "m", some "k", "p"⟩).2, ev.isProviderCall = false :=
  C7_no_python_files_400_no_provider_call envNoPy
    ⟨none, some "AQID", "groq", "m", some "k", "p"⟩
    [1, 2, 3] [] [("a.txt", "x")] rfl rfl rfl (by decide)

/-! Lemmas for the base64 round-trip claim. -/

theorem map_fst_filter_py (entries : List (String × String)) :
    (entries.filter (fun e => strEndsWith e.1 ".py")).map Prod.fst =
      (entries.map Prod.fst).filter (fun n => strEndsWith n ".py") := by
  induction entries with
  | nil => rfl
  | cons e es ih =>
    cases h : strEndsWith e.1 ".py" <;>
      simp [List.filter_cons, h, ih]

theorem find_of_filter_py_singleton (entries : List (String × String))
    (name content : String)
    (h : entries.filter (fun e => strEndsWith e.1 ".py") = [(name, content)]) :
    entries.find? (fun e => e.1 == name) = some (name, content) := by
  induction entries with
  | nil => simp at h
  | cons e es ih =>
    cases hpe : strEndsWith e.1 ".py" with
    | true =>
      simp only [List.filter_cons, hpe, if_true] at h
      obtain ⟨he, hrest⟩ := List.cons_eq_cons.mp h
      subst he
      have : (Prod.fst (name, content) == name) = true := by simp
      simp [List.find?, this]
    | false =>
      simp only [List.filter_cons, hpe, Bool.false_eq_true, if_false] at h
      have hmem : (name, content) ∈ es.filter (fun e => strEndsWith e.1 ".py") := by
        rw [h]; simp
      have hname : strEndsWith name ".py" = true :=
        (List.mem_filter.mp hmem).2
      have hne : (e.1 == name) = false := by
        rcases hq : (e.1 == name) with _ | _
        · rfl
        · exfalso
          have : e.1 = name := by simpa using hq
          rw [this, hname] at hpe
          exact Bool.noConfusion hpe
      simp [List.find?, hne, ih h]

theorem dispatch_trace (env : Env) (lp code pr : String) (key : Option String)
    (model : String) (h : lp ∈ providers) :
    (dispatch env lp code pr key model).2 = [.providerCall lp code pr key model] := by
  simp only [providers, List.mem_cons, List.not_mem_nil, or_false] at h
  rcases h with h | h | h | h <;> subst h <;> rfl

/-- C8: for a request supplying a valid base64 string that decodes to an
archive extracting to exactly one recognized source file, the handler
passes that file's exact original text content as the code content of
the provider documentation call. -/
theorem C8_base64_zip_roundtrip (env : Env) (r : RequestBody) (s : String)
    (b : Bytes) (entries : List (String × String)) (name content : String)
    (hv : validationError r (lowerStr r.llm_provider) = none)
    (hg : truthy r.github_url = false)
    (hs : r.zip_file = some s)
    (hdec : b64decode s = some b)
    (hu : env.unzip b = .ok entries)
    (hone : entries.filter (fun e => strEndsWith e.1 ".py") = [(name, content)])
    (hprov : lowerStr r.llm_provider ∈ providers) :
    .providerCall (lowerStr r.llm_provider) content r.prompt r.api_key r.llm_model ∈
      (generate_documentation env r).2 := by
  have hfiles : (entries.map Prod.fst).filter (fun n => strEndsWith n ".py") = [name] := by
    rw [← map_fst_filter_py, hone]; rfl
  have hread : read_file entries name = content := by
    simp only [read_file, find_of_filter_py_singleton entries name content hone,
      Option.map_some', Option.getD_some]
  have hp : process_zip env.unzip b = .ok content := by
    simp only [process_zip, hu, hfiles, hread]
  have hz : getZipData env.net r = (.ok b, []) := by
    simp only [getZipData, hg, Bool.false_eq_true, if_false, hs, Option.getD_some, hdec]
  have htr : (try_body env r).2 =
      [.providerCall (lowerStr r.llm_provider) content r.prompt r.api_key r.llm_model] := by
    simp only [try_body, try_body_with, hv, hz, hp]
    rcases hd : dispatch env (lowerStr r.llm_provider) content r.prompt r.api_key
        r.llm_model with ⟨dres, tr2⟩
    have h2 : tr2 = [.providerCall (lowerStr r.llm_provider) content r.prompt r.api_key
        r.llm_model] := by
      have := dispatch_trace env (lowerStr r.llm_provider) content r.prompt r.api_key
        r.llm_model hprov
      rw [hd] at this
      exact this
    cases dres <;> simp [hd, h2]
  rw [gen_trace, htr]
  simp

/-- An environment for the C8 witness: the bytes `[1, 2, 3]` extract to
the single Python file `a.py` with content `hello-source`. -/
def envOneFile : Env :=
  { env0 with
    unzip := fun b => if b = [1, 2, 3] then .ok [("a.py", "hello-source")]
                      else .error "bad zip" }

theorem C8_base64_zip_roundtrip_witness :
    .providerCall (lowerStr "Groq") "hello-source" "p" (some "k") "m" ∈
      (generate_documentation envOneFile
        ⟨none, some "AQID", "Groq", "m", some "k", "p"⟩).2 :=
  C8_base64_zip_roundtrip envOneFile ⟨none, some "AQID", "Groq", "m", some "k", "p"⟩
    "AQID" [1, 2, 3] [("a.py", "hello-source")] "a.py" "hello-source"
    rfl rfl rfl rfl rfl rfl (by decide)

/-- The handler builds its `try` block around the once-lowercased
provider: replacing the `llm_provider` field leaves everything else
untouched. -/
theorem tb_update (env : Env) (r : RequestBody) (v : String) :
    try_body env { r with llm_provider := v } = try_body_with env r (lowerStr v) := rfl

theorem tb_success_provider (env : Env) (r : RequestBody) (lp : String)
    (body : SuccessBody) (tr : List Event)
    (h : try_body_with env r lp = (.ok body, tr)) : body.llm_provider = lp := by
  unfold try_body_with at h
  repeat' split at h
  all_goals
    obtain ⟨h1, h2⟩ := Prod.ext_iff.mp h
  any_goals exact Except.noConfusion h1
  all_goals
    have h3 := Except.ok.inj h1
    subst h3
    rfl

theorem except_chain_success (res : Except PyError SuccessBody) (b : SuccessBody)
    (h : except_chain res = .success b) : res = .ok b := by
  cases res with
  | ok x => simp [except_chain] at h; rw [h]
  | error e => cases e <;> simp [except_chain] at h

/-- C9: provider matching is case-insensitive: `llm_provider` is
lowercased once at the start of the handler and every subsequent check
and dispatch uses only that lowercased value, so any two spellings with
the same lowercase form produce identical responses (e.g. "Groq" behaves
as "groq"); and the `llm_provider` field of a successful response is the
lowercased name, not the caller's original string. -/
theorem C9_provider_lowercased (env : Env) (r : RequestBody) :
    (∀ v w, lowerStr v = lowerStr w →
      generate_documentation env { r with llm_provider := v } =
        generate_documentation env { r with llm_provider := w }) ∧
    (∀ body, (generate_documentation env r).1 = .success body →
      body.llm_provider = lowerStr r.llm_provider) := by
  constructor
  · intro v w hvw
    unfold generate_documentation
    rw [tb_update, tb_update, hvw]
  · intro body h
    have h2 : (try_body env r).1 = .ok body := except_chain_success _ _ h
    exact tb_success_provider env r (lowerStr r.llm_provider) body (try_body env r).2
      (Prod.ext_iff.mpr ⟨h2, rfl⟩)

/-- A mixed-case request for the C9 witness. -/
def r9 : RequestBody := ⟨none, some "AQID", "Groq", "m", some "k", "p"⟩

theorem C9_provider_lowercased_witness :
    (generate_documentation env0 { r9 with llm_provider := "Groq" } =
      generate_documentation env0 { r9 with llm_provider := "groq" }) ∧
    SuccessBody.llm_provider ⟨"groq-doc", "flow", "groq", "m"⟩ = lowerStr r9.llm_provider :=
  ⟨(C9_provider_lowercased env0 r9).1 "Groq" "groq" (by decide),
   (C9_provider_lowercased env0 r9).2 ⟨"groq-doc", "flow", "groq", "m"⟩ rfl⟩

/-- C10: when `github_url` is a non-empty string the request is
processed from it regardless of `zip_file`: the response is invariant
under any change of the `zip_file` field (so supplying both is not
rejected and the inline archive is ignored entirely), and the archive
bytes are obtained by `fetch_github_zip` on the URL. -/
theorem C10_github_url_precedence (env : Env) (r : RequestBody) (u : String)
    (hu : r.github_url = some u) (hne : u ≠ "") :
    (∀ z, generate_documentation env { r with zip_file := z } =
       generate_documentation env r) ∧
    getZipData env.net r = fetch_github_zip env.net u := by
  have ht : truthy r.github_url = true := by rw [hu]; simp [truthy, hne]
  have hg : getZipData env.net r = fetch_github_zip env.net u := by
    simp only [getZipData, ht, if_true]
    rw [hu]
    rfl
  refine ⟨?_, hg⟩
  intro z
  have hval : ∀ lp, validationError { r with zip_file := z } lp = validationError r lp := by
    intro lp
    simp only [validationError, missing_fields, required_fields, ht, Bool.true_or]
  have hgz : getZipData env.net { r with zip_file := z } = getZipData env.net r := by
    simp only [getZipData, ht, if_true]
  have htb : try_body env { r with zip_file := z } = try_body env r := by
    rw [show try_body env { r with zip_file := z } =
          try_body_with env { r with zip_file := z } (lowerStr r.llm_provider) from rfl]
    rw [show try_body env r = try_body_with env r (lowerStr r.llm_provider) from rfl]
    unfold try_body_with
    rw [hval, hgz]
  unfold generate_documentation
  rw [htb]

/-- A request supplying both input sources, for the C10 witness. -/
def r10 : RequestBody :=
  ⟨some "https://github.com/u/r.zip", some "AQID", "groq", "m", some "k", "p"⟩

theorem C10_github_url_precedence_witness :
    (generate_documentation env0 { r10 with zip_file := none } =
      generate_documentation env0 r10) ∧
    getZipData env0.net r10 = fetch_github_zip env0.net "https://github.com/u/r.zip" :=
  ⟨(C10_github_url_precedence env0 r10 "https://github.com/u/r.zip" rfl
      (by decide)).1 none,
   (C10_github_url_precedence env0 r10 "https://github.com/u/r.zip" rfl
      (by decide)).2⟩

end FastWriteAPI
